import Mathlib

/-
Verification of the beam-report generator (src/Main.py) against its
natural-language specification (spec.md).

The program is a single linear pipeline: read a spreadsheet into a data
frame, build LaTeX document markup (cover, a stride-2 summary table, two
pgfplots chart sections), and compile it to a PDF.  The shallow embedding
below models:

  * a spreadsheet row as an association list from column names to cells
    (numeric cells are idealized as rationals; `pd.read_excel` column
    access `row[c]` raising `KeyError` becomes an `Except` lookup);
  * Python fixed-point formatting `f"{x:.2f}"` / `f"{x:.1f}"` as exact
    round-half-even decimal formatting of the rational value;
  * `df.iloc[::2]` as `everyOther`;
  * the document as the ordered lists of packages, preamble entries and
    body chunks appended by `generate_beam_report`, with every literal
    LaTeX brace written as an escape;
  * the environment (existence of beam_data.xlsx and beam.png, health of
    the pdflatex toolchain) as an explicit `FS` record, since the build
    step consults `os.path.exists('beam.png')` and the render step runs
    the compiler;
  * `doc.generate_pdf(..., clean_tex=False, compiler='pdflatex')` by its
    documented behaviour: write the .tex source, run the compiler, raise
    on compiler failure, and never delete the .tex source.
-/

set_option maxRecDepth 20000

namespace BeamReport

/-- A spreadsheet cell: numeric (idealized as an exact rational) or text. -/
inductive Cell where
  | num (q : ℚ)
  | str (s : String)
deriving DecidableEq

/-- One data-frame row: an ordered association list from column name to cell,
mirroring the pandas row objects handed out by `df.iterrows()`. -/
abbrev Row := List (String × Cell)

/-- The data frame produced by `pd.read_excel('beam_data.xlsx')` (Main.py line 9):
an ordered list of rows. -/
abbrev Table := List Row

/-- The Python exceptions the script can raise, by kind. -/
inductive PyError where
  | inputNotFound
  | keyError (col : String)
  | valueError
  | renderError
deriving DecidableEq

/-- First cell stored under column `c` in row `r`, if any. -/
def lookupCol (r : Row) (c : String) : Option Cell :=
  (r.find? (fun p => p.1 = c)).map (fun p => p.2)

/-- Column access `row[c]`: raises `KeyError` when the column is absent. -/
def getCol (r : Row) (c : String) : Except PyError Cell :=
  match lookupCol r c with
  | some v => Except.ok v
  | none => Except.error (PyError.keyError c)

/-- Round the fraction `n / d` (with `d > 0`) to the nearest integer, ties to
even, as Python float formatting does on its (here idealized as exact)
operand.  Stated on the numerator and denominator so that it evaluates by
plain integer arithmetic. -/
def roundHalfEven (n d : Int) : Int :=
  let f := Int.fdiv n d
  let rm := n - f * d
  if 2 * rm < d then f
  else if d < 2 * rm then f + 1
  else if f % 2 = 0 then f else f + 1

/-- Decimal digits of `n`, left-padded with zeros to width `w`. -/
def padZeros (w : Nat) (n : Nat) : String :=
  let s := toString n
  String.mk (List.replicate (w - s.length) '0') ++ s

/-- Python `f"{x:.pf}"` on the exact rational `x`: fixed-point with `p`
fractional digits, rounding half to even (the rounded scaled value is
`x * 10 ^ p = (x.num * 10 ^ p) / x.den`). -/
def formatFixed (p : Nat) (q : ℚ) : String :=
  let n : Int := roundHalfEven (q.num * (10 : Int) ^ p) (q.den : Int)
  let sign := if n < 0 then "-" else ""
  let a := n.natAbs
  sign ++ toString (a / 10 ^ p) ++ "." ++ padZeros p (a % 10 ^ p)

/-- Apply the `:.pf` format spec to a cell: a text cell raises `ValueError`
(Python rejects a float format spec on `str`). -/
def formatCell (p : Nat) : Cell → Except PyError String
  | Cell.num q => Except.ok (formatFixed p q)
  | Cell.str _ => Except.error PyError.valueError

/-- The plain string interpolation `f"{v}"` used for plot coordinates
(Main.py lines 93 and 107): integers print without a fractional part,
other rationals as numerator/denominator, text verbatim. -/
def cellStr : Cell → String
  | Cell.num q => if q.den = 1 then toString q.num else toString q.num ++ "/" ++ toString q.den
  | Cell.str s => s

/-- The stride-2 selection `df.iloc[::2]` (Main.py line 75): every other row,
starting at row index 0. -/
def everyOther : Table → Table
  | [] => []
  | [r] => [r]
  | r :: _ :: rest => r :: everyOther rest

/-- One rendered summary-table row (Main.py line 76): position to two
decimals, shear and moment to one decimal, each access able to raise. -/
def summaryRow (r : Row) : Except PyError (String × String × String) := do
  let x ← getCol r "X"
  let xs ← formatCell 2 x
  let s ← getCol r "Shear force"
  let ss ← formatCell 1 s
  let m ← getCol r "Bending Moment"
  let ms ← formatCell 1 m
  return (xs, ss, ms)

/-- Left-to-right effectful map over `Except`: the list of results, or the
first raised error (the semantics of a Python loop or comprehension whose
body may raise). -/
def mapExcept {α β : Type} (f : α → Except PyError β) : List α → Except PyError (List β)
  | [] => Except.ok []
  | a :: l => do
      let b ← f a
      let bs ← mapExcept f l
      return b :: bs

/-- All data rows of the summary table (Main.py lines 75 to 76): the formatted
stride-2 rows, in order. -/
def summaryRows (t : Table) : Except PyError (List (String × String × String)) :=
  mapExcept summaryRow (everyOther t)

/-- The two cells a chart reads from one row: `r['X']` and `r[c]`, in that
evaluation order (Main.py lines 93 and 107). -/
def chartRow (c : String) (r : Row) : Except PyError (Cell × Cell) := do
  let x ← getCol r "X"
  let v ← getCol r c
  return (x, v)

/-- The coordinate pairs of the shear-force chart (Main.py line 93): for each
row of the full table, in order, the `X` and `Shear force` cells. -/
def sfdCoords (t : Table) : Except PyError (List (Cell × Cell)) :=
  mapExcept (chartRow "Shear force") t

/-- The coordinate pairs of the bending-moment chart (Main.py line 107). -/
def bmdCoords (t : Table) : Except PyError (List (Cell × Cell)) :=
  mapExcept (chartRow "Bending Moment") t

/-- One coordinate piece `f"({x}, {v}) "` of a plot's coordinate string. -/
def coordPiece (xv : Cell × Cell) : String :=
  "(" ++ cellStr xv.1 ++ ", " ++ cellStr xv.2 ++ ") "

/-- The `"".join(...)` of the coordinate pieces. -/
def coordsString (cs : List (Cell × Cell)) : String :=
  String.join (cs.map coordPiece)

/-- The fixed markup of the shear chart before the coordinate string
(Main.py lines 94 to 100). -/
def sfdPre : String :=
  "\n    \\begin\x7bcenter\x7d\n    \\begin\x7btikzpicture\x7d\n    \\begin\x7baxis\x7d[width=11cm, height=5cm, axis x line=center, axis y line=left, \n        xlabel=$x$, ylabel=$V$, grid=major, grid style=\x7bdotted, slate!30\x7d,\n        title=\\textbf\x7bV-Diagram\x7d, title style=\x7bcolor=accent\x7d]\n    \\addplot[thick, accent, fill=accent, fill opacity=0.1] coordinates \x7b"

/-- The fixed markup of the shear chart after the coordinate string
(Main.py lines 100 to 104). -/
def sfdPost : String :=
  "\x7d \\closedcycle;\n    \\end\x7baxis\x7d\n    \\end\x7btikzpicture\x7d\n    \\end\x7bcenter\x7d\n    "

/-- The fixed markup of the moment chart before the coordinate string
(Main.py lines 108 to 114). -/
def bmdPre : String :=
  "\n    \\begin\x7bcenter\x7d\n    \\begin\x7btikzpicture\x7d\n    \\begin\x7baxis\x7d[width=11cm, height=5cm, axis x line=bottom, axis y line=left, \n        xlabel=$x$, ylabel=$M$, grid=major, grid style=\x7bdotted, slate!30\x7d,\n        title=\\textbf\x7bM-Diagram\x7d, title style=\x7bcolor=slate\x7d]\n    \\addplot[thick, slate, fill=slate, fill opacity=0.15] coordinates \x7b"

/-- The fixed markup of the moment chart after the coordinate string
(Main.py lines 114 to 118). -/
def bmdPost : String :=
  "\x7d \\closedcycle;\n    \\end\x7baxis\x7d\n    \\end\x7btikzpicture\x7d\n    \\end\x7bcenter\x7d\n    "

/-- `generate_sfd_plot(df)` (Main.py lines 92 to 104): the chart markup with
the coordinate string spliced in; a missing column raises `KeyError`. -/
def generate_sfd_plot (t : Table) : Except PyError String := do
  let cs ← sfdCoords t
  return sfdPre ++ coordsString cs ++ sfdPost

/-- `generate_bmd_plot(df)` (Main.py lines 106 to 118). -/
def generate_bmd_plot (t : Table) : Except PyError String := do
  let cs ← bmdCoords t
  return bmdPre ++ coordsString cs ++ bmdPost

/-- The built document: the ordered package, preamble and body items
accumulated by `generate_beam_report` (serialization by the LaTeX backend is
a fixed injective function of this data). -/
structure Doc where
  packages : List String
  preamble : List String
  body : List String
deriving DecidableEq

/-- Packages appended in Main.py lines 15 to 21, in order. -/
def reportPackages : List String :=
  ["tgadventor", "tcolorbox", "xcolor", "tikz", "pgfplots",
   "geometry[margin=0.75in]", "fancyhdr"]

/-- Preamble entries: Main.py lines 24 to 27, then the page-2 setup appended
mid-build at lines 62 to 65. -/
def reportPreamble : List String :=
  ["\\definecolor\x7bslate\x7d\x7bHTML\x7d\x7b273746\x7d",
   "\\definecolor\x7baccent\x7d\x7bHTML\x7d\x7b2E86C1\x7d",
   "\\renewcommand\x7b\\familydefault\x7d\x7b\\sfdefault\x7d",
   "\\pgfplotsset\x7bcompat=1.18\x7d",
   "\\pagestyle\x7bfancy\x7d",
   "\\fancyhf\x7b\x7d",
   "\\lfoot\x7b\\small \\color\x7bgray\x7d Apoorv Goyal | 23BCG10116\x7d",
   "\\rfoot\x7b\\small Page \\thepage\x7d"]

/-- The cover identifier box (Main.py lines 37 to 44): a raw block with the
hardcoded author, registration id, subject and `\today` date. -/
def coverBox : String :=
  "\n    \\begin\x7btcolorbox\x7d[colframe=slate, colback=white, title=Project Identifiers]\n    \\textbf\x7bLead Engineer:\x7d Apoorv Goyal \\\\\n    \\textbf\x7bRegistration ID:\x7d 23BCG10116 \\\\\n    \\textbf\x7bSubject:\x7d Simply Supported Beam - 12m Span Analysis \\\\\n    \\textbf\x7bDate of Issue:\x7d \\today\n    \\end\x7btcolorbox\x7d\n    "

/-- Page-1 cover block (Main.py lines 30 to 46), in append order. -/
def coverChunks : List String :=
  ["\\begin\x7bcenter\x7d",
   "\x7b\\Huge \\textbf\x7b\\color\x7bslate\x7dTECHNICAL MEMORANDUM\x7d \\par\x7d",
   "\\vspace\x7b0.5cm\x7d",
   "\x7b\\large \\textit\x7bStructural Analysis of Flexural Members\x7d\x7d \\par",
   "\\vspace\x7b0.8cm\x7d",
   coverBox,
   "\\end\x7bcenter\x7d",
   "\\vspace\x7b0.5cm\x7d"]

/-- The narrative sentence opening the Project Scope section (Main.py line 49). -/
def scopeNarrative : String :=
  "This memorandum presents the calculated internal force distribution for a primary structural element. The analysis focuses on deriving the Shear Force Diagram (SFD) and Bending Moment Diagram (BMD) under static load conditions."

/-- The surrounding text of the Configuration Modeling subsection (Main.py line 52). -/
def configNarrative : String :=
  "The beam is modeled with ideal pinned-roller boundary conditions. The geometry and loading path are visualized in the figure below:"

/-- The image line added inside the figure when `beam.png` exists (Main.py line 55). -/
def includeGraphicsLine : String :=
  "\\includegraphics[width=0.6\\textwidth]\x7bbeam.png\x7d"

/-- The figure caption line (Main.py line 56), added unconditionally. -/
def captionLine : String :=
  "\\caption\x7bAnalytical Free Body Diagram.\x7d"

/-- Project Scope section with the Configuration Modeling subsection and its
figure (Main.py lines 48 to 56): the image is added only when
`os.path.exists('beam.png')` holds; the caption always is. -/
def scopeChunks (beamPngExists : Bool) : List String :=
  ["\\section\x7bProject Scope\x7d",
   scopeNarrative,
   "\\subsection\x7bConfiguration Modeling\x7d",
   configNarrative,
   "\\begin\x7bfigure\x7d[h!]"]
  ++ (if beamPngExists then [includeGraphicsLine] else [])
  ++ [captionLine, "\\end\x7bfigure\x7d"]

/-- Numerical Computation Matrix section (Main.py lines 67 to 76): header row,
rule, then the formatted stride-2 data rows. -/
def matrixChunks (rows : List (String × String × String)) : List String :=
  ["\\section\x7bNumerical Computation Matrix\x7d",
   "Sampled data points extracted from the finite element simulation:",
   "\\vspace\x7b0.3cm\x7d",
   "\\begin\x7btabular\x7d\x7bp\x7b3cm\x7d p\x7b3cm\x7d p\x7b3cm\x7d\x7d",
   "\\textbf\x7bPoint (m)\x7d & \\textbf\x7bShear (kN)\x7d & \\textbf\x7bMoment (kNm)\x7d\\\\",
   "\\hline"]
  ++ rows.map (fun p => p.1 ++ " & " ++ p.2.1 ++ " & " ++ p.2.2 ++ "\\\\")
  ++ ["\\end\x7btabular\x7d"]

/-- Internal Force Envelopes section (Main.py lines 78 to 85) holding the two
chart subsections. -/
def envelopeChunks (sfd bmd : String) : List String :=
  ["\\section\x7bInternal Force Envelopes\x7d",
   "The graphical plots below describe the mechanical response of the beam.",
   "\\subsection\x7bShear Force Variance\x7d",
   sfd,
   "\\subsection\x7bBending Moment Variance\x7d",
   bmd]

/-- The document-building portion of `generate_beam_report` (Main.py lines 12
to 85): assembles packages, preamble and body in source order.  Its inputs are
the loaded table and the one piece of environment state it consults, the
existence of `beam.png`; the first failing column access or format aborts the
build with that error, in source evaluation order (summary table before the
shear chart before the moment chart). -/
def buildDocument (t : Table) (beamPngExists : Bool) : Except PyError Doc := do
  let rows ← summaryRows t
  let sfd ← generate_sfd_plot t
  let bmd ← generate_bmd_plot t
  return ⟨reportPackages, reportPreamble,
    coverChunks ++ scopeChunks beamPngExists ++ ["\\newpage"]
      ++ matrixChunks rows ++ envelopeChunks sfd bmd⟩

/-- The environment state the script touches: the parsed content of
`beam_data.xlsx` (`none` when the file is missing), whether `beam.png`
exists, and whether the pdflatex toolchain works. -/
structure FS where
  beamData : Option Table
  beamPngExists : Bool
  pdflatexOk : Bool
deriving DecidableEq

/-- The load step `pd.read_excel('beam_data.xlsx')` (Main.py line 9): raises
`FileNotFoundError` (kind `inputNotFound`) when the file is missing, and
otherwise returns the parsed table performing no column validation at all. -/
def read_excel (data : Option Table) : Except PyError Table :=
  match data with
  | none => Except.error PyError.inputNotFound
  | some t => Except.ok t

/-- `build_document` as a function of the whole environment: the build reads
nothing of the environment except the existence of `beam.png`. -/
def buildDocumentFS (t : Table) (fs : FS) : Except PyError Doc :=
  buildDocument t fs.beamPngExists

deriving instance DecidableEq for Except

/-- Outcome of the render step: the raised error if any, whether the
generated .tex source remains on disk, and whether the .pdf was produced. -/
structure RenderOutcome where
  result : Except PyError Unit
  texLeft : Bool
  pdfWritten : Bool
deriving DecidableEq

/-- Models `doc.generate_pdf(..., clean_tex=..., compiler='pdflatex')`
(Main.py line 89) by the library's documented behaviour: the .tex source is
written first; a compiler failure raises `CalledProcessError` (kind
`renderError`) leaving the .tex in place; on success the .tex is removed only
when `clean_tex` is set. -/
def generate_pdf (pdflatexOk : Bool) (clean_tex : Bool) : RenderOutcome :=
  if pdflatexOk then ⟨Except.ok (), !clean_tex, true⟩
  else ⟨Except.error PyError.renderError, true, false⟩

/-- The render step as invoked by the script: `clean_tex=False` (Main.py
line 89). -/
def renderStep (pdflatexOk : Bool) : RenderOutcome :=
  generate_pdf pdflatexOk false

/-- The whole pipeline `generate_beam_report()` (Main.py lines 7 to 90):
load, build, render; the first raised error aborts the run. -/
def generate_beam_report (fs : FS) : Except PyError (Doc × RenderOutcome) := do
  let df ← read_excel fs.beamData
  let doc ← buildDocument df fs.beamPngExists
  let out := renderStep fs.pdflatexOk
  match out.result with
  | Except.ok _ => return (doc, out)
  | Except.error e => Except.error e

/-- Substring test on character lists. -/
def isSubChars (pat : List Char) : List Char → Bool
  | [] => pat.isEmpty
  | c :: rest => pat.isPrefixOf (c :: rest) || isSubChars pat rest

/-- Whether `pat` occurs as a contiguous substring of `s`. -/
def strContainsB (s pat : String) : Bool :=
  isSubChars pat.toList s.toList

/-- Modelled from the spec: the metadata configuration struct with fields
`{author, id, subject, date}` that section 4.1 ascribes to `build_document`.
No such argument exists in src/Main.py (the cover values are hardcoded); this
type only states the spec's claim for comparison with the source. -/
structure Metadata where
  author : String
  regId : String
  subject : String
  date : String
deriving DecidableEq

/-- Whether every field of `m` appears verbatim in the cover identifier box
of the built document. -/
def metadataAppears (m : Metadata) : Bool :=
  strContainsB coverBox m.author && strContainsB coverBox m.regId
    && strContainsB coverBox m.subject && strContainsB coverBox m.date

/-- Whether an optional cell is a numeric cell. -/
def isNum : Option Cell → Bool
  | some (Cell.num _) => true
  | _ => false

/-- A row of the documented input schema: numeric `X`, `Shear force` and
`Bending Moment` columns all present (spec.md section 6). -/
def validRow (r : Row) : Prop :=
  isNum (lookupCol r "X") = true ∧ isNum (lookupCol r "Shear force") = true
    ∧ isNum (lookupCol r "Bending Moment") = true

/-- A valid input table: every row matches the documented schema. -/
def validTable (t : Table) : Prop :=
  ∀ r ∈ t, validRow r

instance validRowDecidable : DecidablePred validRow := fun r => by
  unfold validRow; infer_instance

instance validTableDecidable (t : Table) : Decidable (validTable t) := by
  unfold validTable; exact List.decidableBAll _ t

/-- The numeric value stored under column `c` (0 when absent or textual;
only used beneath a `validRow` hypothesis). -/
def colNum (r : Row) (c : String) : ℚ :=
  match lookupCol r c with
  | some (Cell.num q) => q
  | _ => 0

/-- The cell stored under column `c` (a dummy when absent; only used beneath
a presence hypothesis). -/
def colCell (r : Row) (c : String) : Cell :=
  (lookupCol r c).getD (Cell.str "")

/-- The summary-table row the code renders from a valid row: position to two
decimals, shear and moment to one. -/
def rowSummaryFmt (r : Row) : String × String × String :=
  (formatFixed 2 (colNum r "X"), formatFixed 1 (colNum r "Shear force"),
    formatFixed 1 (colNum r "Bending Moment"))

/-- The coordinate pair a chart reads from one row of a valid table. -/
def chartPair (c : String) (r : Row) : Cell × Cell :=
  (colCell r "X", colCell r c)

/-- Build an input row with the three schema columns. -/
def mkRow (x s m : ℚ) : Row :=
  [("X", Cell.num x), ("Shear force", Cell.num s), ("Bending Moment", Cell.num m)]

/-- The end-to-end sample table of spec.md section 8:
rows (0,0,0), (6,10,-5), (12,0,0). -/
def c8Table : Table :=
  [mkRow 0 0 0, mkRow 6 10 (-5), mkRow 12 0 0]

/-- A one-row table used to exhibit the dependence of the build on the
existence of `beam.png`. -/
def tOne : Table :=
  [mkRow 1 2 3]

/-- A one-row table whose row lacks the `Shear force` column. -/
def noShearRow : Row :=
  [("X", Cell.num 0), ("Bending Moment", Cell.num 0)]

/-- A table that loads fine but cannot be rendered into the summary table. -/
def noShearTable : Table :=
  [noShearRow]

/-- The sample table with an extra column appended to every row: it agrees
with `c8Table` on the three schema columns. -/
def c8TableExtra : Table :=
  [mkRow 0 0 0 ++ [("Units", Cell.str "kN")],
   mkRow 6 10 (-5) ++ [("Units", Cell.str "kN")],
   mkRow 12 0 0 ++ [("Units", Cell.str "kN")]]

/-- Serialization of the built document to markup bytes: the accumulated
items in order (the LaTeX backend's dump is a fixed function of this data). -/
def Doc.render (d : Doc) : String :=
  String.intercalate "\n" (d.packages ++ d.preamble ++ d.body)

/-- Rows agreeing on the three columns the build reads. -/
def agreeCols (r₁ r₂ : Row) : Prop :=
  lookupCol r₁ "X" = lookupCol r₂ "X"
    ∧ lookupCol r₁ "Shear force" = lookupCol r₂ "Shear force"
    ∧ lookupCol r₁ "Bending Moment" = lookupCol r₂ "Bending Moment"

instance agreeColsDecidable (r₁ r₂ : Row) : Decidable (agreeCols r₁ r₂) := by
  unfold agreeCols; infer_instance

instance forall₂AgreeColsDecidable :
    ∀ (t₁ t₂ : Table), Decidable (List.Forall₂ agreeCols t₁ t₂)
  | [], [] => isTrue List.Forall₂.nil
  | [], _ :: _ => isFalse fun h => by cases h
  | _ :: _, [] => isFalse fun h => by cases h
  | a :: l₁, b :: l₂ =>
      have : Decidable (List.Forall₂ agreeCols l₁ l₂) := forall₂AgreeColsDecidable l₁ l₂
      decidable_of_iff (agreeCols a b ∧ List.Forall₂ agreeCols l₁ l₂)
        (List.forall₂_cons).symm

lemma exists_num {o : Option Cell} (h : isNum o = true) :
    ∃ q, o = some (Cell.num q) := by
  cases o with
  | none => simp [isNum] at h
  | some c =>
      cases c with
      | num q => exact ⟨q, rfl⟩
      | str s => simp [isNum] at h

lemma isNum_isSome {o : Option Cell} (h : isNum o = true) : o.isSome = true := by
  obtain ⟨q, rfl⟩ := exists_num h
  rfl

lemma summaryRow_ok (r : Row) (h : validRow r) :
    summaryRow r = Except.ok (rowSummaryFmt r) := by
  obtain ⟨q1, hq1⟩ := exists_num h.1
  obtain ⟨q2, hq2⟩ := exists_num h.2.1
  obtain ⟨q3, hq3⟩ := exists_num h.2.2
  unfold summaryRow rowSummaryFmt colNum getCol formatCell
  rw [hq1, hq2, hq3]
  rfl

lemma chartRow_ok (c : String) (r : Row) (hx : (lookupCol r "X").isSome = true)
    (hc : (lookupCol r c).isSome = true) :
    chartRow c r = Except.ok (chartPair c r) := by
  obtain ⟨vx, hvx⟩ := Option.isSome_iff_exists.mp hx
  obtain ⟨vc, hvc⟩ := Option.isSome_iff_exists.mp hc
  unfold chartRow chartPair colCell getCol
  rw [hvx, hvc]
  rfl

lemma getCol_congr (c : String) {r₁ r₂ : Row}
    (h : lookupCol r₁ c = lookupCol r₂ c) : getCol r₁ c = getCol r₂ c := by
  unfold getCol
  rw [h]

lemma mapExcept_ok {α β : Type} (f : α → Except PyError β) (g : α → β) :
    ∀ (l : List α), (∀ a ∈ l, f a = Except.ok (g a)) →
      mapExcept f l = Except.ok (l.map g)
  | [], _ => rfl
  | a :: l, h => by
      have ha : f a = Except.ok (g a) := h a (List.mem_cons_self a l)
      have hl := mapExcept_ok f g l (fun x hx => h x (List.mem_cons_of_mem a hx))
      unfold mapExcept
      rw [ha, hl]
      rfl

lemma mapExcept_error_head {α β : Type} (f : α → Except PyError β) (e : PyError)
    (a : α) (l : List α) (h : f a = Except.error e) :
    mapExcept f (a :: l) = Except.error e := by
  unfold mapExcept
  rw [h]
  rfl

lemma mapExcept_congr {α β : Type} {f : α → Except PyError β} :
    ∀ {l₁ l₂ : List α}, List.Forall₂ (fun a b => f a = f b) l₁ l₂ →
      mapExcept f l₁ = mapExcept f l₂ := by
  intro l₁ l₂ h
  induction h with
  | nil => rfl
  | cons hab _ ih =>
      unfold mapExcept
      rw [hab, ih]

lemma everyOther_length : ∀ (t : Table), (everyOther t).length = (t.length + 1) / 2
  | [] => rfl
  | [_] => by simp [everyOther]
  | _ :: _ :: rest => by
      simp only [everyOther, List.length_cons, everyOther_length rest]
      omega

lemma everyOther_getElem? : ∀ (t : Table) (i : Nat), (everyOther t)[i]? = t[2 * i]?
  | [], i => by simp [everyOther]
  | [a], 0 => rfl
  | [a], i + 1 => by
      have h2 : 2 * (i + 1) = 2 * i + 1 + 1 := by omega
      simp [everyOther, h2]
  | a :: b :: rest, 0 => by simp [everyOther]
  | a :: b :: rest, i + 1 => by
      have h2 : 2 * (i + 1) = 2 * i + 1 + 1 := by omega
      simp only [everyOther, h2, List.getElem?_cons_succ]
      exact everyOther_getElem? rest i

lemma mem_of_mem_everyOther : ∀ (t : Table) (r : Row), r ∈ everyOther t → r ∈ t
  | [], r, h => by simp [everyOther] at h
  | [a], r, h => by simpa [everyOther] using h
  | a :: b :: rest, r, h => by
      simp only [everyOther, List.mem_cons] at h ⊢
      rcases h with h | h
      · exact Or.inl h
      · exact Or.inr (Or.inr (mem_of_mem_everyOther rest r h))

lemma forall₂_everyOther {R : Row → Row → Prop} :
    ∀ (l₁ l₂ : Table), List.Forall₂ R l₁ l₂ →
      List.Forall₂ R (everyOther l₁) (everyOther l₂)
  | [], [], _ => List.Forall₂.nil
  | [], _ :: _, h => by cases h
  | _ :: _, [], h => by cases h
  | [a], [b], h => by simpa [everyOther] using h
  | [a], b :: b2 :: l₂, h => by
      rcases h with _ | ⟨_, h'⟩
      cases h'
  | a :: a2 :: l₁, [b], h => by
      rcases h with _ | ⟨_, h'⟩
      cases h'
  | a :: a2 :: l₁, b :: b2 :: l₂, h => by
      rcases h with _ | ⟨hab, h'⟩
      rcases h' with _ | ⟨_, h''⟩
      exact List.Forall₂.cons hab (forall₂_everyOther l₁ l₂ h'')

lemma validRow_cols {r : Row} (h : validRow r) :
    (lookupCol r "X").isSome = true ∧ (lookupCol r "Shear force").isSome = true
      ∧ (lookupCol r "Bending Moment").isSome = true :=
  ⟨isNum_isSome h.1, isNum_isSome h.2.1, isNum_isSome h.2.2⟩

lemma summaryRows_ok (t : Table) (h : validTable t) :
    summaryRows t = Except.ok ((everyOther t).map rowSummaryFmt) :=
  mapExcept_ok summaryRow rowSummaryFmt (everyOther t)
    (fun r hr => summaryRow_ok r (h r (mem_of_mem_everyOther t r hr)))

lemma sfdCoords_ok (t : Table) (h : validTable t) :
    sfdCoords t = Except.ok (t.map (chartPair "Shear force")) :=
  mapExcept_ok (chartRow "Shear force") (chartPair "Shear force") t
    (fun r hr => chartRow_ok _ r (validRow_cols (h r hr)).1 (validRow_cols (h r hr)).2.1)

lemma bmdCoords_ok (t : Table) (h : validTable t) :
    bmdCoords t = Except.ok (t.map (chartPair "Bending Moment")) :=
  mapExcept_ok (chartRow "Bending Moment") (chartPair "Bending Moment") t
    (fun r hr => chartRow_ok _ r (validRow_cols (h r hr)).1 (validRow_cols (h r hr)).2.2)

lemma sfd_plot_ok (t : Table) (h : validTable t) :
    generate_sfd_plot t =
      Except.ok (sfdPre ++ coordsString (t.map (chartPair "Shear force")) ++ sfdPost) := by
  unfold generate_sfd_plot
  rw [sfdCoords_ok t h]
  rfl

lemma bmd_plot_ok (t : Table) (h : validTable t) :
    generate_bmd_plot t =
      Except.ok (bmdPre ++ coordsString (t.map (chartPair "Bending Moment")) ++ bmdPost) := by
  unfold generate_bmd_plot
  rw [bmdCoords_ok t h]
  rfl

lemma buildDocument_ok (t : Table) (b : Bool) (h : validTable t) :
    buildDocument t b = Except.ok
      ⟨reportPackages, reportPreamble,
        coverChunks ++ scopeChunks b ++ ["\\newpage"]
          ++ matrixChunks ((everyOther t).map rowSummaryFmt)
          ++ envelopeChunks
              (sfdPre ++ coordsString (t.map (chartPair "Shear force")) ++ sfdPost)
              (bmdPre ++ coordsString (t.map (chartPair "Bending Moment")) ++ bmdPost)⟩ := by
  unfold buildDocument
  rw [summaryRows_ok t h, sfd_plot_ok t h, bmd_plot_ok t h]
  rfl

/-- C1: for every valid input table of N rows, the summary data table holds
exactly ceil(N/2) data rows (`(N + 1) / 2`), taken at stride 2 starting from
row index 0, with each row's position formatted to 2 decimal places and its
shear and moment values formatted to 1 decimal place (`rowSummaryFmt`). -/
theorem summary_table_stride2 (t : Table) (h : validTable t) :
    ∃ rows, summaryRows t = Except.ok rows ∧
      rows.length = (t.length + 1) / 2 ∧
      ∀ i : Nat, rows[i]? = (t[2 * i]?).map rowSummaryFmt := by
  refine ⟨(everyOther t).map rowSummaryFmt, summaryRows_ok t h, ?_, ?_⟩
  · rw [List.length_map, everyOther_length]
  · intro i
    rw [List.getElem?_map, everyOther_getElem?]

/-- Witness for C1 at the sample table. -/
theorem summary_table_stride2_witness :
    validTable c8Table ∧
      ∃ rows, summaryRows c8Table = Except.ok rows ∧
        rows.length = (c8Table.length + 1) / 2 ∧
        ∀ i : Nat, rows[i]? = (c8Table[2 * i]?).map rowSummaryFmt :=
  ⟨by decide, summary_table_stride2 c8Table (by decide)⟩

/-- C2: for every valid input table of N rows, both chart coordinate
sequences hold exactly N points, in table order, whose values are the `X`
and `Shear force` (resp. `Bending Moment`) cells taken verbatim, with no
transformation. -/
theorem chart_coords_verbatim (t : Table) (h : validTable t) :
    ∃ vs ms, sfdCoords t = Except.ok vs ∧ bmdCoords t = Except.ok ms ∧
      vs.length = t.length ∧ ms.length = t.length ∧
      (∀ i : Nat, vs[i]? = (t[i]?).map (chartPair "Shear force")) ∧
      (∀ i : Nat, ms[i]? = (t[i]?).map (chartPair "Bending Moment")) := by
  refine ⟨t.map (chartPair "Shear force"), t.map (chartPair "Bending Moment"),
    sfdCoords_ok t h, bmdCoords_ok t h, ?_, ?_, ?_, ?_⟩
  · simp
  · simp
  · intro i
    rw [List.getElem?_map]
  · intro i
    rw [List.getElem?_map]

/-- Witness for C2 at the sample table. -/
theorem chart_coords_verbatim_witness :
    validTable c8Table ∧
      ∃ vs ms, sfdCoords c8Table = Except.ok vs ∧ bmdCoords c8Table = Except.ok ms ∧
        vs.length = c8Table.length ∧ ms.length = c8Table.length ∧
        (∀ i : Nat, vs[i]? = (c8Table[i]?).map (chartPair "Shear force")) ∧
        (∀ i : Nat, ms[i]? = (c8Table[i]?).map (chartPair "Bending Moment")) :=
  ⟨by decide, chart_coords_verbatim c8Table (by decide)⟩

/-- C3 as stated is false on the code: a table whose rows lack the
`Shear force` column loads without error (`read_excel` performs no column
validation), and the `KeyError` surfaces only during document building. -/
theorem missing_column_not_a_load_failure :
    read_excel (some noShearTable) = Except.ok noShearTable ∧
    buildDocument noShearTable false = Except.error (PyError.keyError "Shear force") :=
  ⟨rfl, by decide⟩

/-- C3 amended: loading a missing file fails with `InputNotFound` in the load
step; a table whose first row lacks the `Shear force` column (position
numeric) loads successfully, and the `KeyError` — the code's counterpart of
`InputFormatError` — is raised in the document-build step. -/
theorem load_and_column_failures (t : Table) (r : Row) (rest : List Row) (b : Bool)
    (ht : t = r :: rest)
    (hx : isNum (lookupCol r "X") = true)
    (hs : lookupCol r "Shear force" = none) :
    read_excel none = Except.error PyError.inputNotFound ∧
    read_excel (some t) = Except.ok t ∧
    buildDocument t b = Except.error (PyError.keyError "Shear force") := by
  subst ht
  refine ⟨rfl, rfl, ?_⟩
  obtain ⟨q, hq⟩ := exists_num hx
  have hrow : summaryRow r = Except.error (PyError.keyError "Shear force") := by
    unfold summaryRow getCol formatCell
    rw [hq, hs]
    rfl
  obtain ⟨l, hl⟩ : ∃ l, everyOther (r :: rest) = r :: l := by
    cases rest with
    | nil => exact ⟨[], rfl⟩
    | cons r2 rest2 => exact ⟨everyOther rest2, rfl⟩
  have hsum : summaryRows (r :: rest) = Except.error (PyError.keyError "Shear force") := by
    unfold summaryRows
    rw [hl]
    exact mapExcept_error_head _ _ _ _ hrow
  unfold buildDocument
  rw [hsum]
  rfl

/-- Witness for the amended C3 at the concrete one-row table. -/
theorem load_and_column_failures_witness :
    (noShearTable = noShearRow :: [] ∧ isNum (lookupCol noShearRow "X") = true
        ∧ lookupCol noShearRow "Shear force" = none) ∧
      (read_excel none = Except.error PyError.inputNotFound ∧
        read_excel (some noShearTable) = Except.ok noShearTable ∧
        buildDocument noShearTable false = Except.error (PyError.keyError "Shear force")) :=
  ⟨⟨rfl, by decide, by decide⟩,
    load_and_column_failures noShearTable noShearRow [] false rfl (by decide) (by decide)⟩

/-- C4: on a valid table the build never fails whether or not `beam.png`
exists; the figure's image line is in the Project Scope chunk list exactly
when the image exists, while the caption and the surrounding subsection text
are always emitted. -/
theorem figure_optional_image (t : Table) (b : Bool) (h : validTable t) :
    ∃ d rest, buildDocument t b = Except.ok d ∧
      d.body = coverChunks ++ scopeChunks b ++ rest ∧
      (includeGraphicsLine ∈ scopeChunks b ↔ b = true) ∧
      captionLine ∈ scopeChunks b ∧ configNarrative ∈ scopeChunks b := by
  refine ⟨_, ["\\newpage"] ++ matrixChunks ((everyOther t).map rowSummaryFmt)
      ++ envelopeChunks
          (sfdPre ++ coordsString (t.map (chartPair "Shear force")) ++ sfdPost)
          (bmdPre ++ coordsString (t.map (chartPair "Bending Moment")) ++ bmdPost),
    buildDocument_ok t b h, by simp, ?_, ?_, ?_⟩
  · cases b <;> decide
  · cases b <;> decide
  · cases b <;> decide

/-- Witness for C4 at the sample table with the image present. -/
theorem figure_optional_image_witness :
    validTable c8Table ∧
      ∃ d rest, buildDocument c8Table true = Except.ok d ∧
        d.body = coverChunks ++ scopeChunks true ++ rest ∧
        (includeGraphicsLine ∈ scopeChunks true ↔ true = true) ∧
        captionLine ∈ scopeChunks true ∧ configNarrative ∈ scopeChunks true :=
  ⟨by decide, figure_optional_image c8Table true (by decide)⟩

/-- C5 as stated is false on the code: with the identical table (and the
hardcoded metadata), flipping only the filesystem fact of whether `beam.png`
exists changes the built document, so `build_document` is not a function of
table and metadata alone, independent of the filesystem. -/
theorem build_depends_on_filesystem :
    buildDocumentFS c8Table ⟨none, true, true⟩ ≠ buildDocumentFS c8Table ⟨none, false, true⟩ := by
  decide

/-- C5 amended: the build is deterministic and consults no environment state
beyond the existence of `beam.png`: any two environments agreeing on that
one fact yield the same document for the same table. -/
theorem build_pure_given_png_flag (t : Table) (fs₁ fs₂ : FS)
    (h : fs₁.beamPngExists = fs₂.beamPngExists) :
    buildDocumentFS t fs₁ = buildDocumentFS t fs₂ := by
  unfold buildDocumentFS
  rw [h]

/-- Witness for the amended C5: two environments differing in everything but
the `beam.png` flag. -/
theorem build_pure_given_png_flag_witness :
    (FS.mk none true true).beamPngExists = (FS.mk (some c8Table) true false).beamPngExists ∧
      buildDocumentFS c8Table ⟨none, true, true⟩
        = buildDocumentFS c8Table ⟨some c8Table, true, false⟩ :=
  ⟨rfl, build_pure_given_png_flag c8Table ⟨none, true, true⟩ ⟨some c8Table, true, false⟩ rfl⟩

/-- C6 as stated is false on the code: two builds with the identical table
(and the hardcoded metadata) yield different markup when `beam.png` appears
or disappears between the calls, because the build re-reads the filesystem. -/
theorem second_build_differs_on_png_change :
    buildDocument tOne true ≠ buildDocument tOne false := by
  decide

/-- C6 amended: two builds with identical table and identical `beam.png`
existence state yield byte-identical document markup. -/
theorem build_twice_identical_markup (t₁ t₂ : Table) (b₁ b₂ : Bool)
    (ht : t₁ = t₂) (hb : b₁ = b₂) :
    (buildDocument t₁ b₁).map Doc.render = (buildDocument t₂ b₂).map Doc.render := by
  rw [ht, hb]

/-- Witness for the amended C6 at the sample table. -/
theorem build_twice_identical_markup_witness :
    c8Table = c8Table ∧ true = true ∧
      (buildDocument c8Table true).map Doc.render
        = (buildDocument c8Table true).map Doc.render :=
  ⟨rfl, rfl, build_twice_identical_markup c8Table c8Table true true rfl rfl⟩

/-- C7 as stated is false on the code: `build_document` takes no metadata
argument — the cover values are hardcoded — so an arbitrary metadata value's
fields do not appear in the cover section (counterexample at a concrete
metadata record). -/
theorem metadata_argument_not_honoured :
    metadataAppears ⟨"Someone Else", "99XX99", "Another Subject", "2024-01-01"⟩ = false := by
  decide

/-- C7 amended: the script has no metadata parameter; the fixed values
author `Apoorv Goyal`, id `23BCG10116`, subject `Simply Supported Beam - 12m
Span Analysis` and the date command `\today` appear verbatim in the cover
identifier box, which the build always emits. -/
theorem hardcoded_identifiers_in_cover :
    metadataAppears ⟨"Apoorv Goyal", "23BCG10116",
        "Simply Supported Beam - 12m Span Analysis", "\\today"⟩ = true
      ∧ coverBox ∈ coverChunks :=
  ⟨by decide, by decide⟩

/-- C8: on the concrete table with rows (0,0,0), (6,10,-5), (12,0,0) the
summary table holds exactly the rows for indices 0 and 2, positions rendered
`0.00` and `12.00`, and the shear chart coordinates are exactly
(0,0), (6,10), (12,0). -/
theorem end_to_end_sample_table :
    summaryRows c8Table = Except.ok [("0.00", "0.0", "0.0"), ("12.00", "0.0", "0.0")] ∧
    sfdCoords c8Table = Except.ok
      [(Cell.num 0, Cell.num 0), (Cell.num 6, Cell.num 10), (Cell.num 12, Cell.num 0)] :=
  ⟨by decide, by decide⟩

/-- C9: the render step fails with `RenderError` exactly when the pdflatex
compilation fails, succeeds otherwise, and on failure the generated .tex
source is left in place (the script passes `clean_tex=False`). -/
theorem render_error_iff_compiler_failure (ok : Bool) :
    ((renderStep ok).result = Except.error PyError.renderError ↔ ok = false) ∧
    ((renderStep ok).result = Except.ok () ↔ ok = true) ∧
    (ok = false → (renderStep ok).texLeft = true) := by
  cases ok <;> exact ⟨by decide, by decide, by decide⟩

/-- Witness for C9 at a failing toolchain. -/
theorem render_error_iff_compiler_failure_witness :
    (renderStep false).result = Except.error PyError.renderError ∧
      (renderStep false).texLeft = true :=
  ⟨(render_error_iff_compiler_failure false).1.mpr rfl,
    (render_error_iff_compiler_failure false).2.2 rfl⟩

/-- C10: the built markup reads only the `X`, `Shear force` and
`Bending Moment` columns: two tables agreeing row-by-row on those three
columns build the identical document, so extra columns have no effect. -/
theorem markup_depends_only_on_schema_cols (t₁ t₂ : Table) (b : Bool)
    (h : List.Forall₂ agreeCols t₁ t₂) :
    buildDocument t₁ b = buildDocument t₂ b := by
  have hgx : ∀ {r₁ r₂ : Row}, agreeCols r₁ r₂ → summaryRow r₁ = summaryRow r₂ := by
    intro r₁ r₂ hr
    unfold summaryRow
    rw [getCol_congr "X" hr.1, getCol_congr "Shear force" hr.2.1,
        getCol_congr "Bending Moment" hr.2.2]
  have hsum : summaryRows t₁ = summaryRows t₂ := by
    unfold summaryRows
    exact mapExcept_congr
      (List.Forall₂.imp (fun a b hr => hgx hr) (forall₂_everyOther t₁ t₂ h))
  have hsfd : sfdCoords t₁ = sfdCoords t₂ := by
    unfold sfdCoords
    refine mapExcept_congr (List.Forall₂.imp (fun a b hr => ?_) h)
    unfold chartRow
    rw [getCol_congr "X" hr.1, getCol_congr "Shear force" hr.2.1]
  have hbmd : bmdCoords t₁ = bmdCoords t₂ := by
    unfold bmdCoords
    refine mapExcept_congr (List.Forall₂.imp (fun a b hr => ?_) h)
    unfold chartRow
    rw [getCol_congr "X" hr.1, getCol_congr "Bending Moment" hr.2.2]
  have hp1 : generate_sfd_plot t₁ = generate_sfd_plot t₂ := by
    unfold generate_sfd_plot
    rw [hsfd]
  have hp2 : generate_bmd_plot t₁ = generate_bmd_plot t₂ := by
    unfold generate_bmd_plot
    rw [hbmd]
  unfold buildDocument
  rw [hsum, hp1, hp2]

/-- Witness for C10: the sample table against the same table with an extra
column in every row. -/
theorem markup_depends_only_on_schema_cols_witness :
    List.Forall₂ agreeCols c8Table c8TableExtra ∧
      buildDocument c8Table true = buildDocument c8TableExtra true :=
  ⟨by decide, markup_depends_only_on_schema_cols c8Table c8TableExtra true (by decide)⟩

end BeamReport
